import Mathlib

/-!
Verification of `django_tables2/columns/manytomanycolumn.py`
(`ManyToManyColumn`, a column rendering many-to-many relations as an
escaped, separator-joined string).

The embedding models:
* Django strings as `Markup` (a text plus a "safe" flag), with the
  collaborators `escape`/`conditional_escape`/`mark_safe` from
  `django.utils.html` and `force_text` from `django.utils.encoding`;
* the relation accessor (`ManyRelatedManager`) as a list of records with
  its `exists` test and `all()`;
* the column itself with its `transform`/`filter`/`separator` hooks, the
  constructor (`__init__` with `kwargs.setdefault("orderable", False)`),
  `render`, and the `from_field` classmethod.
-/

/-- A Django-side value that may be displayed: a model instance (coerced
via its string conversion), a lazy/deferred text object, or plain text.
Models the inputs the spec requires `force_text` to handle. -/
inductive DjangoObject where
  | modelInstance (s : String)
  | lazyText (s : String)
  | plainText (s : String)
deriving DecidableEq, Repr

/-- The collaborator `django.utils.encoding.force_text` of the source file:
coerce an arbitrary object to user-displayable text; model instances go
through their string conversion, lazy text objects are forced. -/
def force_text : DjangoObject → String
  | .modelInstance s => s
  | .lazyText s => s
  | .plainText s => s

/-- A Django string value: the text together with its markup-safety flag
(`django.utils.safestring.SafeString` is modelled as `safe = true`). -/
structure Markup where
  text : String
  safe : Bool
deriving DecidableEq, Repr

/-- HTML-escape one character, as `django.utils.html.escape` does
(`&`, `<`, `>`, `"` and the apostrophe, U+0027, become entities). -/
def escapeChar (c : Char) : String :=
  if c = '&' then "&amp;"
  else if c = '<' then "&lt;"
  else if c = '>' then "&gt;"
  else if c = '"' then "&quot;"
  else if c.toNat = 39 then "&#x27;"
  else String.singleton c

/-- HTML-escape a character list, character by character. -/
def escapeList : List Char → String
  | [] => ""
  | c :: cs => escapeChar c ++ escapeList cs

/-- Django `django.utils.html.escape` on the underlying text (the chained
single-character `str.replace` calls of Django are equivalent to a
character-wise map because no replacement output contains a later
replacement's target). -/
def escapeString (s : String) : String :=
  escapeList s.data

/-- Django `django.utils.html.mark_safe`: mark a string as safe markup. -/
def mark_safe (s : String) : Markup :=
  ⟨s, true⟩

/-- Django `django.utils.html.conditional_escape`: escape the text unless it is
already marked safe; the result is always safe. -/
def conditional_escape (m : Markup) : Markup :=
  if m.safe then m else ⟨escapeString m.text, true⟩

/-- Python `separator.join(items)` on strings. -/
def joinSep (sep : String) : List String → String
  | [] => ""
  | [x] => x
  | x :: y :: xs => x ++ sep ++ joinSep sep (y :: xs)

/-- The per-row relation accessor (`ManyRelatedManager`): the collection
of related records. -/
structure ManyRelatedManager where
  records : List DjangoObject
deriving DecidableEq, Repr

/-- The test `value.exists()`: does the related-record collection hold any record? -/
def ManyRelatedManager.existsRecords (m : ManyRelatedManager) : Bool :=
  !m.records.isEmpty

/-- The call `qs.all()`: the complete related-record collection, unfiltered. -/
def ManyRelatedManager.all (m : ManyRelatedManager) : List DjangoObject :=
  m.records

/-- The `ManyToManyColumn` instance: its `transform`/`filter`/`separator`
hooks plus the base-`Column` configuration slots the claims touch.
The base `Column` class (`columns/base.py`, not under `src/`) is modelled
from the spec as storing the forwarded configuration options
(`orderable`, `verbose_name`). -/
structure ManyToManyColumn where
  transform : DjangoObject → Markup
  filter : ManyRelatedManager → List DjangoObject
  separator : Markup
  orderable : Bool
  verbose_name : Option String

/-- The class-level default `transform`: `force_text(obj)` (a plain,
not-safe-marked string). -/
def defaultTransform (obj : DjangoObject) : Markup :=
  ⟨force_text obj, false⟩

/-- The class-level default `filter`: `qs.all()`. -/
def defaultFilter (qs : ManyRelatedManager) : List DjangoObject :=
  qs.all

/-- The constructor `ManyToManyColumn.__init__(transform=None, filter=None, separator=", ",
**kwargs)`: a supplied `transform`/`filter` overrides the class default;
`kwargs.setdefault("orderable", False)` defaults `orderable` to false only
when the caller did not pass it; the options are forwarded to the base
`Column`. `none` models an argument the caller did not pass. -/
def ManyToManyColumn.init
    (transform : Option (DjangoObject → Markup))
    (filter : Option (ManyRelatedManager → List DjangoObject))
    (separator : Markup)
    (orderable : Option Bool)
    (verbose_name : Option String) : ManyToManyColumn :=
  { transform := transform.getD defaultTransform
    filter := filter.getD defaultFilter
    separator := separator
    orderable := orderable.getD false
    verbose_name := verbose_name }

/-- The method `ManyToManyColumn.render(value)`: `"-"` (a bare, not-safe-marked
string) when `value.exists()` is false; otherwise the transform of each
record yielded by `filter(value)`, each passed through
`conditional_escape`, joined by the `conditional_escape`d separator, and
the joined string marked safe. -/
def ManyToManyColumn.render (c : ManyToManyColumn) (value : ManyRelatedManager) : Markup :=
  if !value.existsRecords then ⟨"-", false⟩
  else
    mark_safe
      (joinSep (conditional_escape c.separator).text
        (((c.filter value).map c.transform).map (fun m => (conditional_escape m).text)))

/-- Map a fallible function over a list left to right, propagating the
first raised exception (Python evaluation order of
`map(self.transform, ...)` forced by `join`). -/
def mapExcept (f : DjangoObject → Except String Markup) :
    List DjangoObject → Except String (List Markup)
  | [] => .ok []
  | a :: as =>
    match f a with
    | .error e => .error e
    | .ok b =>
      match mapExcept f as with
      | .error e => .error e
      | .ok bs => .ok (b :: bs)

/-- A variant of `render` with a transform that may raise: the steps of
`ManyToManyColumn.render` with exceptions propagated uncaught. -/
def ManyToManyColumn.renderExc (c : ManyToManyColumn)
    (transformE : DjangoObject → Except String Markup)
    (value : ManyRelatedManager) : Except String Markup :=
  if !value.existsRecords then .ok ⟨"-", false⟩
  else
    match mapExcept transformE (c.filter value) with
    | .error e => .error e
    | .ok items =>
      .ok (mark_safe
        (joinSep (conditional_escape c.separator).text
          (items.map (fun m => (conditional_escape m).text))))

/-- An ORM field-metadata descriptor, distinguished by kind as
`from_field`'s `isinstance(field, models.ManyToManyField)` test does. -/
inductive DjangoField where
  | manyToMany (verbose_name : String)
  | charField (verbose_name : String)
  | integerField (verbose_name : String)
deriving DecidableEq, Repr

/-- The verbose name carried by a field descriptor. -/
def DjangoField.fieldVerboseName : DjangoField → String
  | .manyToMany s => s
  | .charField s => s
  | .integerField s => s

/-- Is the descriptor a many-to-many relationship field? -/
def DjangoField.isManyToMany : DjangoField → Bool
  | .manyToMany _ => true
  | _ => false

/-- Modelled from the spec: `ucfirst` (from `django_tables2.utils`, a
repository module not under `src/`) returns the label with its first
character upper-cased and the rest unchanged. -/
def ucfirst (s : String) : String :=
  match s.data with
  | [] => ""
  | c :: cs => String.mk (c.toUpper :: cs)

/-- The classmethod `ManyToManyColumn.from_field(field)`: for a `ManyToManyField`, a new
column passing only `verbose_name=ucfirst(field.verbose_name)`; for any
other field the method falls through and returns `None`. -/
def ManyToManyColumn.from_field (field : DjangoField) : Option ManyToManyColumn :=
  match field with
  | .manyToMany vn =>
    some (ManyToManyColumn.init none none ⟨", ", false⟩ none (some (ucfirst vn)))
  | _ => none

/-! Helper lemmas shared by the claim theorems. -/

theorem conditional_escape_of_not_safe (m : Markup) (h : m.safe = false) :
    conditional_escape m = ⟨escapeString m.text, true⟩ := by
  simp [conditional_escape, h]

theorem escapeList_append (l1 l2 : List Char) :
    escapeList (l1 ++ l2) = escapeList l1 ++ escapeList l2 := by
  induction l1 with
  | nil => simp [escapeList]
  | cons c cs ih => simp [escapeList, ih, String.append_assoc]

theorem escapeString_append (a b : String) :
    escapeString (a ++ b) = escapeString a ++ escapeString b := by
  cases a with
  | mk da =>
    cases b with
    | mk db =>
      show escapeList (da ++ db) = _
      exact escapeList_append da db

theorem escapeString_joinSep (sep : String) (l : List String) :
    escapeString (joinSep sep l) = joinSep (escapeString sep) (l.map escapeString) := by
  induction l with
  | nil => rfl
  | cons x xs ih =>
    cases xs with
    | nil => rfl
    | cons y ys =>
      show escapeString (x ++ sep ++ joinSep sep (y :: ys)) = _
      rw [escapeString_append, escapeString_append, ih]
      rfl

/-- The non-empty branch of `render`, when neither the transform outputs
nor the separator are pre-marked safe: every piece goes through the
unconditional escape. -/
theorem render_text_of_plain (c : ManyToManyColumn) (value : ManyRelatedManager)
    (hne : value.existsRecords = true)
    (ht : ∀ r ∈ c.filter value, (c.transform r).safe = false)
    (hs : c.separator.safe = false) :
    c.render value =
      ⟨joinSep (escapeString c.separator.text)
        ((c.filter value).map (fun r => escapeString (c.transform r).text)), true⟩ := by
  have hsep : (conditional_escape c.separator).text = escapeString c.separator.text := by
    rw [conditional_escape_of_not_safe c.separator hs]
  have hmap : ((c.filter value).map c.transform).map (fun m => (conditional_escape m).text)
      = (c.filter value).map (fun r => escapeString (c.transform r).text) := by
    rw [List.map_map]
    apply List.map_congr_left
    intro r hr
    simp [Function.comp, conditional_escape_of_not_safe (c.transform r) (ht r hr)]
  simp [ManyToManyColumn.render, hne, mark_safe, hsep, hmap]

theorem mapExcept_first_error (f : DjangoObject → Except String Markup)
    (pre post : List DjangoObject) (r : DjangoObject) (e : String)
    (hpre : ∀ a ∈ pre, ∃ b, f a = .ok b) (hr : f r = .error e) :
    mapExcept f (pre ++ r :: post) = .error e := by
  induction pre with
  | nil => simp [mapExcept, hr]
  | cons a as ih =>
    obtain ⟨b, hb⟩ := hpre a (by simp)
    have hrec := ih (fun x hx => hpre x (by simp [hx]))
    simp [mapExcept, hb, hrec]

/-! The claim theorems. -/

/-- C1: for a relation accessor whose collection is non-empty, `render`
returns a safe-marked string whose content is the escaped transform texts
of the records yielded by `filter`, joined by the escaped separator, in
the order `filter` yields them (transform outputs and separator being
plain text, not pre-marked safe). -/
theorem render_nonempty_escaped_join (c : ManyToManyColumn) (value : ManyRelatedManager)
    (hne : value.existsRecords = true)
    (ht : ∀ r ∈ c.filter value, (c.transform r).safe = false)
    (hs : c.separator.safe = false) :
    c.render value =
      ⟨joinSep (escapeString c.separator.text)
        ((c.filter value).map (fun r => escapeString (c.transform r).text)), true⟩ :=
  render_text_of_plain c value hne ht hs

/-- Witness for C1 at a concrete column and accessor holding two records,
one of whose display texts contains markup. -/
theorem render_nonempty_escaped_join_witness :
    (ManyRelatedManager.existsRecords ⟨[.plainText "<b>", .modelInstance "Bob"]⟩ = true) ∧
      (ManyToManyColumn.init none none ⟨", ", false⟩ none none).render
          ⟨[.plainText "<b>", .modelInstance "Bob"]⟩ =
        ⟨"&lt;b&gt;, Bob", true⟩ := by
  refine ⟨by decide, ?_⟩
  rw [render_nonempty_escaped_join
    (ManyToManyColumn.init none none ⟨", ", false⟩ none none)
    ⟨[.plainText "<b>", .modelInstance "Bob"]⟩
    (by decide) (by decide) (by decide)]
  decide

/-- C2: for a relation accessor whose emptiness test reports no records,
`render` returns exactly the plain string `"-"`, unescaped and not marked
safe. -/
theorem render_empty_placeholder (c : ManyToManyColumn) (value : ManyRelatedManager)
    (h : value.existsRecords = false) :
    c.render value = ⟨"-", false⟩ := by
  simp [ManyToManyColumn.render, h]

/-- Witness for C2 at the empty accessor. -/
theorem render_empty_placeholder_witness :
    (ManyRelatedManager.existsRecords ⟨[]⟩ = false) ∧
      (ManyToManyColumn.init none none ⟨", ", false⟩ none none).render ⟨[]⟩ =
        ⟨"-", false⟩ :=
  ⟨by decide,
   render_empty_placeholder (ManyToManyColumn.init none none ⟨", ", false⟩ none none)
     ⟨[]⟩ (by decide)⟩

/-- C3 counterexample: `render` uses `conditional_escape`, which trusts
values already marked safe. With a transform returning the safe-marked
markup `"<b>"` and a safe-marked separator `"<&>"`, the rendered cell
contains both verbatim — neither is escaped (escaping would have changed
them), so a safe-marked separator with markup-significant characters does
inject markup. -/
theorem render_safe_markup_trusted :
    (ManyToManyColumn.init (some (fun _ => ⟨"<b>", true⟩)) none ⟨"<&>", true⟩ none none).render
        ⟨[.plainText "x", .plainText "y"]⟩ = ⟨"<b><&><b>", true⟩ ∧
      escapeString "<b>" ≠ "<b>" ∧ escapeString "<&>" ≠ "<&>" := by
  refine ⟨by decide, by decide, by decide⟩

/-- C3 amended: transform output and separator are passed through the
conditional escaping collaborator; when neither is pre-marked safe, both
are escaped before joining, and the rendered text is exactly the HTML
escape of the plain joined text — so plain transform output and a plain
separator cannot inject markup. A value already marked safe is trusted as
pre-formed markup and inserted verbatim. -/
theorem render_escapes_unsafe_text (c : ManyToManyColumn) (value : ManyRelatedManager)
    (hne : value.existsRecords = true)
    (ht : ∀ r ∈ c.filter value, (c.transform r).safe = false)
    (hs : c.separator.safe = false) :
    (c.render value).text =
      escapeString
        (joinSep c.separator.text ((c.filter value).map (fun r => (c.transform r).text))) := by
  rw [render_text_of_plain c value hne ht hs, escapeString_joinSep, List.map_map]
  rfl

/-- Witness for the amended C3 at a concrete column whose separator and
item text both contain markup-significant characters. -/
theorem render_escapes_unsafe_text_witness :
    (ManyRelatedManager.existsRecords ⟨[.plainText "<i>", .plainText "b&c"]⟩ = true) ∧
      ((ManyToManyColumn.init none none ⟨" & ", false⟩ none none).render
          ⟨[.plainText "<i>", .plainText "b&c"]⟩).text =
        escapeString "<i> & b&c" := by
  refine ⟨by decide, ?_⟩
  rw [render_escapes_unsafe_text
    (ManyToManyColumn.init none none ⟨" & ", false⟩ none none)
    ⟨[.plainText "<i>", .plainText "b&c"]⟩
    (by decide) (by decide) (by decide)]
  decide

/-- C4: the constructor defaults `orderable` to false when the caller
does not pass it, and keeps exactly the supplied value (including true)
when the caller passes one. -/
theorem init_orderable_default
    (t : Option (DjangoObject → Markup))
    (f : Option (ManyRelatedManager → List DjangoObject))
    (s : Markup) (v : Option String) :
    (ManyToManyColumn.init t f s none v).orderable = false ∧
      ∀ b : Bool, (ManyToManyColumn.init t f s (some b) v).orderable = b := by
  exact ⟨rfl, fun b => rfl⟩

/-- C5: `from_field` returns a column whose verbose name is the
first-character-upper-cased field label for a many-to-many field
descriptor, and returns nothing for every other descriptor kind. -/
theorem from_field_m2m_or_none (field : DjangoField) :
    (∀ vn, field = .manyToMany vn →
      ∃ c, ManyToManyColumn.from_field field = some c ∧
        c.verbose_name = some (ucfirst vn)) ∧
    (field.isManyToMany = false → ManyToManyColumn.from_field field = none) := by
  cases field with
  | manyToMany vn =>
    refine ⟨?_, ?_⟩
    · intro vn2 h
      cases h
      exact ⟨_, rfl, rfl⟩
    · intro h
      cases h
  | charField vn =>
    refine ⟨?_, fun _ => rfl⟩
    intro vn2 h
    cases h
  | integerField vn =>
    refine ⟨?_, fun _ => rfl⟩
    intro vn2 h
    cases h

/-- Witness for C5: a many-to-many field labelled `"friends"` yields a
column named `"Friends"`; a char field yields nothing. -/
theorem from_field_m2m_or_none_witness :
    (∃ c, ManyToManyColumn.from_field (.manyToMany "friends") = some c ∧
        c.verbose_name = some (ucfirst "friends")) ∧
      ManyToManyColumn.from_field (.charField "name") = none :=
  ⟨(from_field_m2m_or_none (.manyToMany "friends")).1 "friends" rfl,
   (from_field_m2m_or_none (.charField "name")).2 rfl⟩

/-- C6: when the constructor receives no transform, the instance's
transform is the default, returning `force_text` of the record as plain
text; `force_text` handles model instances via their string conversion
and lazy text objects by forcing them. -/
theorem default_transform_force_text
    (f : Option (ManyRelatedManager → List DjangoObject))
    (s : Markup) (o : Option Bool) (v : Option String) :
    (∀ obj, (ManyToManyColumn.init none f s o v).transform obj = ⟨force_text obj, false⟩) ∧
      (∀ str : String,
        force_text (.modelInstance str) = str ∧ force_text (.lazyText str) = str) := by
  exact ⟨fun obj => rfl, fun str => ⟨rfl, rfl⟩⟩

/-- C7: for a non-empty accessor, when the transform raises on the first
failing record yielded by `filter` (every earlier record transforming
fine), `render` propagates exactly that exception: no partial output, no
skipped item, no per-item fallback. -/
theorem renderExc_propagates (c : ManyToManyColumn)
    (transformE : DjangoObject → Except String Markup) (value : ManyRelatedManager)
    (hne : value.existsRecords = true)
    (pre post : List DjangoObject) (r : DjangoObject) (e : String)
    (hsplit : c.filter value = pre ++ r :: post)
    (hpre : ∀ a ∈ pre, ∃ b, transformE a = .ok b)
    (hr : transformE r = .error e) :
    c.renderExc transformE value = .error e := by
  simp [ManyToManyColumn.renderExc, hne, hsplit,
    mapExcept_first_error transformE pre post r e hpre hr]

/-- Witness for C7: a two-record accessor whose transform raises on the
second record aborts the whole cell with that exception. -/
theorem renderExc_propagates_witness :
    (ManyToManyColumn.init none none ⟨", ", false⟩ none none).renderExc
        (fun r => if r = .plainText "b" then .error "boom" else .ok ⟨"t", false⟩)
        ⟨[.plainText "a", .plainText "b"]⟩ = .error "boom" := by
  refine renderExc_propagates
    (ManyToManyColumn.init none none ⟨", ", false⟩ none none)
    (fun r => if r = .plainText "b" then .error "boom" else .ok ⟨"t", false⟩)
    ⟨[.plainText "a", .plainText "b"]⟩
    (by decide)
    [.plainText "a"] [] (.plainText "b") "boom"
    rfl ?_ rfl
  intro a ha
  rw [List.mem_singleton] at ha
  subst ha
  exact ⟨⟨"t", false⟩, rfl⟩

/-- C8: replacing the filter changes only which records are rendered and
in what order: both renders join the same per-record escaped transform
text with the same escaped separator, and both results are marked safe
alike. -/
theorem render_filter_change (c : ManyToManyColumn)
    (f2 : ManyRelatedManager → List DjangoObject) (value : ManyRelatedManager)
    (hne : value.existsRecords = true) :
    ({ c with filter := f2 }.render value).text =
        joinSep (conditional_escape c.separator).text
          ((f2 value).map (fun r => (conditional_escape (c.transform r)).text)) ∧
      (c.render value).text =
        joinSep (conditional_escape c.separator).text
          ((c.filter value).map (fun r => (conditional_escape (c.transform r)).text)) ∧
      ({ c with filter := f2 }.render value).safe = (c.render value).safe := by
  refine ⟨?_, ?_, ?_⟩ <;>
    simp [ManyToManyColumn.render, hne, mark_safe, List.map_map, Function.comp_def]

/-- Witness for C8: a filter that reverses and limits `[A, B, C]` to two
records renders `"C, B"`, each item text unchanged from the default
render `"A, B, C"`. -/
theorem render_filter_change_witness :
    (ManyRelatedManager.existsRecords
        ⟨[.plainText "A", .plainText "B", .plainText "C"]⟩ = true) ∧
      (({ ManyToManyColumn.init none none ⟨", ", false⟩ none none with
            filter := fun m => (m.all.reverse.take 2) }).render
          ⟨[.plainText "A", .plainText "B", .plainText "C"]⟩).text = "C, B" ∧
      ((ManyToManyColumn.init none none ⟨", ", false⟩ none none).render
          ⟨[.plainText "A", .plainText "B", .plainText "C"]⟩).text = "A, B, C" := by
  refine ⟨by decide, ?_, ?_⟩
  · rw [(render_filter_change (ManyToManyColumn.init none none ⟨", ", false⟩ none none)
      (fun m => (m.all.reverse.take 2))
      ⟨[.plainText "A", .plainText "B", .plainText "C"]⟩ (by decide)).1]
    decide
  · rw [(render_filter_change (ManyToManyColumn.init none none ⟨", ", false⟩ none none)
      (fun m => (m.all.reverse.take 2))
      ⟨[.plainText "A", .plainText "B", .plainText "C"]⟩ (by decide)).2.1]
    decide

/-- C9: when the accessor reports records exist but the filter yields no
record, `render` returns the empty string marked safe, not the
placeholder: the placeholder branch is decided solely by the emptiness
test on the raw accessor. -/
theorem render_filter_excludes_all (c : ManyToManyColumn) (value : ManyRelatedManager)
    (hne : value.existsRecords = true) (hf : c.filter value = []) :
    c.render value = ⟨"", true⟩ := by
  simp [ManyToManyColumn.render, hne, hf, mark_safe, joinSep]

/-- Witness for C9: a one-record accessor with a filter excluding every
record renders the safe empty string. -/
theorem render_filter_excludes_all_witness :
    (ManyRelatedManager.existsRecords ⟨[.plainText "A"]⟩ = true) ∧
      (ManyToManyColumn.init none (some (fun _ => [])) ⟨", ", false⟩ none none).render
          ⟨[.plainText "A"]⟩ = ⟨"", true⟩ :=
  ⟨by decide,
   render_filter_excludes_all
     (ManyToManyColumn.init none (some (fun _ => [])) ⟨", ", false⟩ none none)
     ⟨[.plainText "A"]⟩ (by decide) rfl⟩

/-- C10: the column built by `from_field` for a many-to-many field
carries only the verbose name as explicit configuration: `orderable` is
false, the separator is the plain `", "`, the transform is the default
`force_text` and the filter is the default `qs.all()`. -/
theorem from_field_default_configuration (vn : String) :
    ∃ c, ManyToManyColumn.from_field (.manyToMany vn) = some c ∧
      c.orderable = false ∧
      c.separator = ⟨", ", false⟩ ∧
      (∀ obj, c.transform obj = ⟨force_text obj, false⟩) ∧
      (∀ qs, c.filter qs = qs.all) ∧
      c.verbose_name = some (ucfirst vn) := by
  exact ⟨_, rfl, rfl, rfl, fun obj => rfl, fun qs => rfl, rfl⟩
